import Mathlib

/-!
Shallow embedding of `src/app.py` (Odd-Even Vehicle Interception website).

The Python program is a Flask application; we embed the pure decision logic
of its handlers and adapters.  External effects (the filesystem, the YOLO
model, the outbound HTTP call) are passed in as explicit oracle arguments:
a `String → Bool` file-existence oracle, the list of YOLO results, the HTTP
outcome.  Strings are assumed ASCII (Python's `str.lower`/`str.isdigit` and
Lean's `Char.toLower`/`Char.isDigit` agree on ASCII; Unicode digit classes
are outside the modelled input space).  Paths use the POSIX separator "/".
-/

namespace OddEven

/-- Split a character list at every occurrence of `sep`, keeping empty
pieces (the result is always nonempty).  Structural recursion so that the
kernel can evaluate it on concrete inputs. -/
def splitOnChar (sep : Char) : List Char → List (List Char)
  | [] => [[]]
  | c :: cs =>
    match splitOnChar sep cs with
    | [] => [[]]
    | h :: t => if c = sep then [] :: h :: t else (c :: h) :: t

/-- `Path(p).name`: the final path component (pathlib drops empty components
produced by duplicate or trailing separators). -/
def pyName (p : String) : String :=
  String.mk (((splitOnChar '/' p.toList).filter (fun s => ¬ s.isEmpty)).getLastD [])

/-- Index of the last '.' in a character list, if any. -/
def lastDotIdx : List Char → Option Nat
  | [] => none
  | c :: cs =>
    match lastDotIdx cs with
    | some i => some (i + 1)
    | none => if c = '.' then some 0 else none

/-- `Path(p).suffix`: the extension of the final component.  Mirrors
CPython: the suffix is `name[i:]` for `i` the last dot position when
`0 < i < len(name) - 1`, and empty otherwise. -/
def pySuffix (p : String) : String :=
  let name := (pyName p).toList
  match lastDotIdx name with
  | none => ""
  | some i => if 0 < i ∧ i + 1 < name.length then String.mk (name.drop i) else ""

/-- `Path(p).stem`: the final component without its suffix. -/
def pyStem (p : String) : String :=
  let name := (pyName p).toList
  String.mk (name.take (name.length - (pySuffix p).toList.length))

/-- ASCII lowercasing of a string, character by character (agrees with
Python `str.lower` on ASCII input). -/
def lowerAscii (s : String) : String :=
  String.mk (s.toList.map Char.toLower)

/-- Tokeniser behind Python `s.split()` with no argument: the maximal runs
of non-whitespace characters.  `cur` accumulates the current token in
reverse. -/
def wsTokensAux : List Char → List Char → List (List Char)
  | cur, [] => if cur.isEmpty then [] else [cur.reverse]
  | cur, c :: cs =>
    if c.isWhitespace then
      if cur.isEmpty then wsTokensAux [] cs
      else cur.reverse :: wsTokensAux [] cs
    else wsTokensAux (c :: cur) cs

/-- Python `s.split()` with no argument: split on runs of whitespace and
discard empty pieces. -/
def pySplit (s : String) : List String :=
  (wsTokensAux [] s.toList).map String.mk

/-- Python `s.isdigit()` restricted to ASCII: nonempty and every character
a decimal digit. -/
def pyIsDigit (s : String) : Bool :=
  s ≠ "" && s.toList.all Char.isDigit

/-- Python `int(s)` on an ASCII digit string. -/
def digitsToNat (s : String) : Nat :=
  s.toList.foldl (fun n c => 10 * n + (c.toNat - '0'.toNat)) 0

/-- ALLOWED_EXTENSIONS = \x7b".png", ".jpg", ".jpeg"\x7d.  The Python value is a
set, whose iteration order is unspecified; we fix the source-literal order
(none of the verified properties depends on the order). -/
def ALLOWED_EXTENSIONS : List String := [".png", ".jpg", ".jpeg"]

def UPLOAD_FOLDER : String := "static/uploads"
def RESULT_FOLDER : String := "static/predict"
def CROP_FOLDER : String := "static/predict/crops/license-plate"

/-- `allowed_file(filename)`: true when `Path(filename).suffix.lower()` is in
the allow-list (Python `None` modelled by `Option.none`). -/
def allowed_file (filename : Option String) : Bool :=
  match filename with
  | none => false
  | some f => ALLOWED_EXTENSIONS.contains (lowerAscii (pySuffix f))

/-! ### OCR adapter (`perform_ocr`) -/

/-- One entry of the OCR response's `ParsedResults` array.  `ParsedText`
is `none` when the JSON object has no `"ParsedText"` key. -/
structure ParsedResult where
  ParsedText : Option String
deriving Repr, DecidableEq

/-- The JSON body of an OCR.Space response, restricted to the keys the
program reads.  A field is `none` when the key is absent. -/
structure OcrResponse where
  IsErroredOnProcessing : Option Bool
  ErrorMessage : Option (List String)
  ParsedResults : Option (List ParsedResult)
deriving Repr, DecidableEq

/-- Outcome of the outbound HTTP POST, as seen by the `try` block of
`perform_ocr`: one constructor per caught exception class, plus a parsed
JSON body on success. -/
inductive HttpResult where
  | timeout : HttpResult
  | connectionError : HttpResult
  | httpError (msg : String) : HttpResult
  | requestError (msg : String) : HttpResult
  | invalidJson : HttpResult
  | ok (resp : OcrResponse) : HttpResult
deriving Repr, DecidableEq

/-- Return value of `perform_ocr`: either an error string or the parsed
response object (the Python function distinguishes the two by type). -/
inductive OcrOutcome where
  | err (s : String) : OcrOutcome
  | ok (r : OcrResponse) : OcrOutcome
deriving Repr, DecidableEq

/-- Message built from `f"Error: Invalid image format. Supported formats:
\x7bALLOWED_EXTENSIONS\x7d"`.  CPython formats the set with unspecified element
order; we fix the source-literal order (the verified properties need only
that the message is a fixed string distinct from the other messages). -/
def INVALID_FORMAT_MSG : String :=
  "Error: Invalid image format. Supported formats: \x7b\x27.png\x27, \x27.jpg\x27, \x27.jpeg\x27\x7d"

/-- `perform_ocr(image_path, api_key)`.  `fs` is the file-existence oracle
(`Path(p).exists()`), `http` the outcome of the HTTP POST.  On a parsed
response, `result.get("IsErroredOnProcessing", True)` defaults a missing
flag to true; the error message is `result.get("ErrorMessage", ["Unknown
error"])[0]`, and indexing a present-but-empty list raises `IndexError`,
which the final `except Exception` clause turns into an "Unexpected Error"
string (CPython's message for it is "list index out of range"). -/
def perform_ocr (fs : String → Bool) (image_path api_key : String)
    (http : HttpResult) : OcrOutcome :=
  if api_key = "" then .err "Error: API key is required"
  else if image_path = "" then .err "Error: Image path is required"
  else if ¬ fs image_path then .err ("Error: Image file not found at " ++ image_path)
  else if ¬ allowed_file (some image_path) then .err INVALID_FORMAT_MSG
  else
    match http with
    | .timeout => .err "Error: Request timed out"
    | .connectionError => .err "Error: Failed to connect to the API"
    | .httpError m => .err ("HTTP Error: " ++ m)
    | .requestError m => .err ("Request Error: " ++ m)
    | .invalidJson => .err "Error: Invalid JSON response from API"
    | .ok resp =>
      if resp.IsErroredOnProcessing.getD true then
        match resp.ErrorMessage.getD ["Unknown error"] with
        | [] => .err "Unexpected Error: list index out of range"
        | m :: _ => .err ("OCR Error: " ++ m)
      else .ok resp

/-! ### Detector adapter (`predict_image`) -/

/-- One element of the YOLO result list: the number of bounding boxes
(`result.boxes.xyxy.shape[0]`, with a box-less result falsy) and
`result.save_dir` (`none` models Python `None`). -/
structure YoloResult where
  numBoxes : Nat
  save_dir : Option String
deriving Repr, DecidableEq

/-- The inner probing loop: for each extension in `ALLOWED_EXTENSIONS`,
the first candidate `save_dir / f"\x7bbase\x7d\x7bext\x7d"` that exists. -/
def probeCandidate (fs : String → Bool) (save_dir base : String) : Option String :=
  ALLOWED_EXTENSIONS.findSome? fun ext =>
    let c := save_dir ++ "/" ++ base ++ ext
    if fs c then some c else none

/-- The `for result in results` loop of `predict_image`, threading the
`predicted_image_path` accumulator: a result with no box, or with
`save_dir is None`, or whose probe finds no candidate, leaves the
accumulator unchanged; a successful probe overwrites it.  (The crop-file
moves and directory removals in the same loop are filesystem side effects
that do not feed into the returned value.) -/
def predictLoop (fs : String → Bool) (base : String) :
    List YoloResult → Option String → Option String
  | [], acc => acc
  | r :: rs, acc =>
    if 0 < r.numBoxes then
      match r.save_dir with
      | none => predictLoop fs base rs acc
      | some d =>
        match probeCandidate fs d base with
        | some c => predictLoop fs base rs (some c)
        | none => predictLoop fs base rs acc
    else predictLoop fs base rs acc

/-- `predict_image(image_path)`.  `results` is the list returned by the
YOLO call (an oracle input), `fs` the file-existence oracle.  On the
non-raising path the function returns `(results, relative_path)`, where
`relative_path` is `str(predicted.relative_to("static"))` when a predicted
image was found and `None` otherwise.  `relative_to` raises `ValueError`
when the path is not under "static", and the enclosing `except` then
returns `(None, None)` — the only way both components are `None`. -/
def predict_image (fs : String → Bool) (image_path : String)
    (results : List YoloResult) : Option (List YoloResult) × Option String :=
  let base := pyStem image_path
  match predictLoop fs base results none with
  | none => (some results, none)
  | some p =>
    if "static/".toList.isPrefixOf p.toList then
      (some results, some (String.mk (p.toList.drop 7)))
    else (none, none)

/-! ### Route handlers -/

/-- Strip characters satisfying `p` from both ends of a list
(Python `str.strip`). -/
def pyStrip (p : Char → Bool) (s : List Char) : List Char :=
  ((s.dropWhile p).reverse.dropWhile p).reverse

/-- Characters kept by werkzeug's `_filename_ascii_strip_re` (everything
outside `[A-Za-z0-9_.-]` is deleted). -/
def asciiKeep (c : Char) : Bool :=
  c.isAlphanum || c = '_' || c = '.' || c = '-'

/-- Interleave `sep` between the pieces (the char-list version of
`sep.join(pieces)`). -/
def joinWith (sep : List Char) : List (List Char) → List Char
  | [] => []
  | [x] => x
  | x :: y :: t => x ++ sep ++ joinWith sep (y :: t)

/-- werkzeug's `secure_filename` on ASCII input, POSIX platform: path
separators become spaces, whitespace-split pieces are rejoined with "_",
disallowed characters are deleted, and leading/trailing '.' and '_' are
stripped.  (The NFKD/ASCII-encode step is the identity on ASCII input and
the Windows special-name check does not apply on POSIX.) -/
def secure_filename (f : String) : String :=
  let replaced := f.toList.map fun c => if c = '/' then ' ' else c
  let joined := joinWith ['_'] (wsTokensAux [] replaced)
  String.mk (pyStrip (fun c => c = '.' || c = '_') (joined.filter asciiKeep))

/-- The uploaded file field: filename, declared MIME type, and whether
`PIL.Image.open(...).verify()` succeeds on the byte stream.  (werkzeug's
`FileStorage.__bool__` is the truthiness of the filename, so `not file`
collapses into the `filename == ""` test.) -/
structure UploadedFile where
  filename : String
  mimetype : String
  decodesAsImage : Bool
deriving Repr, DecidableEq

/-- Outcome of the `/upload` handler.  `redirectStart` is reached before
`file.save`, so it implies the file was not persisted; `redirectShow`
carries the filename under which the file was saved. -/
inductive UploadOutcome where
  | redirectStart : UploadOutcome
  | redirectShow (filename : String) : UploadOutcome
deriving Repr, DecidableEq

/-- The `/upload` handler.  `fileField` is `request.files["file"]` when the
"file" part is present and `none` otherwise; `timestamp` is
`datetime.now().strftime("%Y%m%d%H%M%S")`. -/
def upload (fileField : Option UploadedFile) (timestamp : String) : UploadOutcome :=
  match fileField with
  | none => .redirectStart
  | some file =>
    if file.filename = "" ∨ ¬ allowed_file (some file.filename) then .redirectStart
    else if ¬ "image/".toList.isPrefixOf file.mimetype.toList then .redirectStart
    else if ¬ file.decodesAsImage then .redirectStart
    else .redirectShow (secure_filename (timestamp ++ "_" ++ file.filename))

/-- Outcome of the `/show/<filename>` handler. -/
inductive ShowOutcome where
  | redirectStart : ShowOutcome
  | render (filename : String) : ShowOutcome
deriving Repr, DecidableEq

/-- The `/show/<filename>` handler; `uploadExists` is the existence test of
`UPLOAD_FOLDER / filename`. -/
def show_image (filename : String) (uploadExists : Bool) : ShowOutcome :=
  if filename = "" ∨ ¬ allowed_file (some filename) ∨ ¬ uploadExists then .redirectStart
  else .render filename

/-- Outcome of the `/detect` handler. -/
inductive DetectOutcome where
  | redirectStart : DetectOutcome
  | render (image_predicted img_name : String) : DetectOutcome
deriving Repr, DecidableEq

/-- The `/detect` handler.  `fileField` is `request.form.get("file")`,
`uploadExists` the existence of `UPLOAD_FOLDER / file`, `yoloResults` the
model's output for that image, and `cropJpgs` the names produced by
`Path(CROP_FOLDER).glob("*.jpg")` in scan order.  The guard
`if not results or not predicted_image` redirects when the result list is
`None` or empty, or the relative path is `None` or empty. -/
def detect (fs : String → Bool) (fileField : Option String) (uploadExists : Bool)
    (yoloResults : List YoloResult) (cropJpgs : List String) : DetectOutcome :=
  match fileField with
  | none => .redirectStart
  | some f =>
    if f = "" ∨ ¬ allowed_file (some f) then .redirectStart
    else if ¬ uploadExists then .redirectStart
    else
      match predict_image fs (UPLOAD_FOLDER ++ "/" ++ f) yoloResults with
      | (none, _) => .redirectStart
      | (some rs, pimg) =>
        if rs.isEmpty then .redirectStart
        else
          match pimg with
          | none => .redirectStart
          | some p =>
            if p = "" then .redirectStart
            else
              match cropJpgs with
              | [] => .render p f
              | c :: _ => .render p c

/-- Outcome of the `/report` handler.  `raiseError` models an exception
escaping the handler (Flask then answers HTTP 500): the only such point is
the `["ParsedText"]` lookup, which sits before the `try` block and whose
`KeyError` is in any case not among the caught classes. -/
inductive ReportOutcome where
  | redirectStart : ReportOutcome
  | render (txt_report img_report tilang_report : String) : ReportOutcome
  | raiseError (msg : String) : ReportOutcome
deriving Repr, DecidableEq

def UNKNOWN_VERDICT : String := "UNKNOWN (Invalid plate number format)"

/-- `str((Path(CROP_FOLDER) / f).relative_to("static"))` with "/"
separators. -/
def cropRelPath (f : String) : String :=
  "predict/crops/license-plate/" ++ f

/-- Python's violation test:
`(curr_year % 2 == 0 and plate % 2 == 0) or (curr_year % 2 == 1 and plate % 2 == 1)`. -/
def is_violation (curr_year plate : Nat) : Bool :=
  (curr_year % 2 == 0 && plate % 2 == 0) || (curr_year % 2 == 1 && plate % 2 == 1)

/-- The `/report` handler.  `img_name` is `request.form.get("img_name")`,
`cropExists` the existence of `CROP_FOLDER / img_name`, `ocr` the value
returned by `perform_ocr` (error string or parsed object), `curr_year`
`datetime.now().year`.  With ASCII tokens, `int(plate_number)` cannot fail
once `plate_number.isdigit()` holds, and `parsed_text_split[2]` exists once
the length guard passed, so the `except (ValueError, IndexError)` clause is
unreachable in the modelled input space. -/
def report (img_name : Option String) (cropExists : Bool) (ocr : OcrOutcome)
    (curr_year : Nat) : ReportOutcome :=
  match img_name with
  | none => .redirectStart
  | some f =>
    if f = "" ∨ ¬ allowed_file (some f) then .redirectStart
    else if ¬ cropExists then .redirectStart
    else
      match ocr with
      | .err _ => .redirectStart
      | .ok parsed =>
        match parsed.ParsedResults with
        | none => .redirectStart
        | some [] => .redirectStart
        | some (pr :: _) =>
          match pr.ParsedText with
          | none => .raiseError "KeyError: ParsedText"
          | some parsed_text =>
            let toks := pySplit parsed_text
            if toks.length < 3 then .redirectStart
            else
              let plate_number := toks.getD 1 ""
              let txt := toks.getD 0 "" ++ " " ++ plate_number ++ " " ++ toks.getD 2 ""
              if ¬ pyIsDigit plate_number then
                .render txt (cropRelPath f) UNKNOWN_VERDICT
              else
                .render txt (cropRelPath f)
                  (if is_violation curr_year (digitsToNat plate_number) then "YES" else "NO")

/-! ### Helper lemmas -/

/-- The Boolean violation test holds exactly when the year and the plate
number have the same parity. -/
theorem is_violation_iff (y p : Nat) : is_violation y p = true ↔ y % 2 = p % 2 := by
  unfold is_violation
  rcases Nat.mod_two_eq_zero_or_one y with hy | hy <;>
    rcases Nat.mod_two_eq_zero_or_one p with hp | hp <;>
      simp [hy, hp]

/-- Characterisation of the `/report` handler once the request-level guards
passed and the parsed text has at least three tokens: it renders the first
three tokens rejoined with single spaces, the crop's relative path, and the
verdict determined by the digit test on token 1. -/
theorem report_render_eq (f parsed_text : String) (resp : OcrResponse)
    (pr : ParsedResult) (rest : List ParsedResult) (year : Nat)
    (hf : f ≠ "") (hok : allowed_file (some f) = true)
    (hPR : resp.ParsedResults = some (pr :: rest))
    (hTxt : pr.ParsedText = some parsed_text)
    (hLen : 3 ≤ (pySplit parsed_text).length) :
    report (some f) true (.ok resp) year =
      .render
        ((pySplit parsed_text).getD 0 "" ++ " " ++ (pySplit parsed_text).getD 1 ""
          ++ " " ++ (pySplit parsed_text).getD 2 "")
        (cropRelPath f)
        (if pyIsDigit ((pySplit parsed_text).getD 1 "")
         then (if is_violation year (digitsToNat ((pySplit parsed_text).getD 1 ""))
               then "YES" else "NO")
         else UNKNOWN_VERDICT) := by
  have hlt : ¬ (pySplit parsed_text).length < 3 := Nat.not_lt.mpr hLen
  simp [report, hf, hok, hPR, hTxt, hlt]
  cases hd : pyIsDigit ((pySplit parsed_text)[1]?.getD "") <;> simp [hd]

/-- The rendered verdict string equals "YES" exactly when the parities of
the year and the plate number agree. -/
theorem verdict_yes_iff (year N : Nat) :
    ((if is_violation year N then "YES" else "NO") = "YES") ↔ year % 2 = N % 2 := by
  cases hb : is_violation year N
  · have hnv : ¬ year % 2 = N % 2 := fun hv => by
      have h := (is_violation_iff year N).mpr hv
      rw [hb] at h
      exact Bool.false_ne_true h
    exact iff_of_false (by decide) hnv
  · have hv : year % 2 = N % 2 := (is_violation_iff year N).mp hb
    exact iff_of_true (by decide) hv

/-- The rendered verdict string equals "NO" exactly when the parities of
the year and the plate number differ. -/
theorem verdict_no_iff (year N : Nat) :
    ((if is_violation year N then "YES" else "NO") = "NO") ↔ ¬ year % 2 = N % 2 := by
  cases hb : is_violation year N
  · have hnv : ¬ year % 2 = N % 2 := fun hv => by
      have h := (is_violation_iff year N).mpr hv
      rw [hb] at h
      exact Bool.false_ne_true h
    exact iff_of_true (by decide) hnv
  · have hv : year % 2 = N % 2 := (is_violation_iff year N).mp hb
    exact iff_of_false (by decide) (fun hn => hn hv)

/-! ### Claim theorems -/

/-- C1: for every report request whose OCR text splits into at least 3
whitespace-delimited tokens with a numeric token at index 1 (and whose
request-level guards pass, so that a report is rendered at all), the
rendered verdict is "YES" iff the parity of the current year equals the
parity of the numeric plate-number token, and "NO" otherwise. -/
theorem report_verdict_parity (f parsed_text : String) (resp : OcrResponse)
    (pr : ParsedResult) (rest : List ParsedResult) (year : Nat)
    (hf : f ≠ "") (hok : allowed_file (some f) = true)
    (hPR : resp.ParsedResults = some (pr :: rest))
    (hTxt : pr.ParsedText = some parsed_text)
    (hLen : 3 ≤ (pySplit parsed_text).length)
    (hDig : pyIsDigit ((pySplit parsed_text).getD 1 "") = true) :
    ∃ t i v, report (some f) true (.ok resp) year = .render t i v ∧
      (v = "YES" ↔ year % 2 = digitsToNat ((pySplit parsed_text).getD 1 "") % 2) ∧
      (v = "NO" ↔ ¬ year % 2 = digitsToNat ((pySplit parsed_text).getD 1 "") % 2) := by
  have heq := report_render_eq f parsed_text resp pr rest year hf hok hPR hTxt hLen
  rw [hDig] at heq
  have hcond : ((true : Bool) = true) := rfl
  rw [if_pos hcond] at heq
  exact ⟨_, _, _, heq, verdict_yes_iff year _, verdict_no_iff year _⟩

/-- Witness for C1: concrete run with OCR text "B 2024 XYZ" and year 2024. -/
theorem report_verdict_parity_witness :
    ∃ t i v,
      report (some "x.jpg") true
        (.ok ⟨some false, none, some [⟨some "B 2024 XYZ"⟩]⟩) 2024 = .render t i v ∧
      (v = "YES" ↔ 2024 % 2 = digitsToNat ((pySplit "B 2024 XYZ").getD 1 "") % 2) ∧
      (v = "NO" ↔ ¬ 2024 % 2 = digitsToNat ((pySplit "B 2024 XYZ").getD 1 "") % 2) :=
  report_verdict_parity "x.jpg" "B 2024 XYZ"
    ⟨some false, none, some [⟨some "B 2024 XYZ"⟩]⟩ ⟨some "B 2024 XYZ"⟩ [] 2024
    (by decide) (by decide) rfl rfl (by decide) (by decide)

/-- C3: for every report request whose OCR text splits into at least 3
whitespace-delimited tokens whose token at index 1 is not numeric, the
handler renders a report (no redirect, no exception) whose verdict is
exactly "UNKNOWN (Invalid plate number format)". -/
theorem report_unknown_format (f parsed_text : String) (resp : OcrResponse)
    (pr : ParsedResult) (rest : List ParsedResult) (year : Nat)
    (hf : f ≠ "") (hok : allowed_file (some f) = true)
    (hPR : resp.ParsedResults = some (pr :: rest))
    (hTxt : pr.ParsedText = some parsed_text)
    (hLen : 3 ≤ (pySplit parsed_text).length)
    (hDig : pyIsDigit ((pySplit parsed_text).getD 1 "") = false) :
    report (some f) true (.ok resp) year =
      .render
        ((pySplit parsed_text).getD 0 "" ++ " " ++ (pySplit parsed_text).getD 1 ""
          ++ " " ++ (pySplit parsed_text).getD 2 "")
        (cropRelPath f)
        "UNKNOWN (Invalid plate number format)" := by
  have heq := report_render_eq f parsed_text resp pr rest year hf hok hPR hTxt hLen
  rw [hDig] at heq
  rw [if_neg (by decide)] at heq
  simpa [UNKNOWN_VERDICT] using heq

/-- Witness for C3: concrete run with OCR text "B ABCD XYZ". -/
theorem report_unknown_format_witness :
    report (some "x.jpg") true
        (.ok ⟨some false, none, some [⟨some "B ABCD XYZ"⟩]⟩) 2024 =
      .render ((pySplit "B ABCD XYZ").getD 0 "" ++ " " ++ (pySplit "B ABCD XYZ").getD 1 ""
          ++ " " ++ (pySplit "B ABCD XYZ").getD 2 "")
        (cropRelPath "x.jpg") "UNKNOWN (Invalid plate number format)" :=
  report_unknown_format "x.jpg" "B ABCD XYZ"
    ⟨some false, none, some [⟨some "B ABCD XYZ"⟩]⟩ ⟨some "B ABCD XYZ"⟩ [] 2024
    (by decide) (by decide) rfl rfl (by decide) (by decide)

/-- C4 counterexample: a response whose first parsed result has no
`"ParsedText"` key makes the handler raise (the dictionary lookup sits
before the `try` block and `KeyError` is not among the caught classes), so
the request is answered with HTTP 500 — not redirected to the start page. -/
theorem report_absent_text_cex :
    report (some "x.jpg") true (.ok ⟨some false, none, some [⟨none⟩]⟩) 2024 =
      ReportOutcome.raiseError "KeyError: ParsedText" ∧
    report (some "x.jpg") true (.ok ⟨some false, none, some [⟨none⟩]⟩) 2024 ≠
      ReportOutcome.redirectStart := by
  constructor
  · rfl
  · decide

/-- C4 (amended): if the `ParsedText` field is present but empty, or splits
into fewer than 3 whitespace-delimited tokens, the report route redirects
to the start page and renders no report; if the field is absent the handler
instead raises an uncaught `KeyError`. -/
theorem report_short_text (f : String) (resp : OcrResponse)
    (pr : ParsedResult) (rest : List ParsedResult) (year : Nat)
    (hf : f ≠ "") (hok : allowed_file (some f) = true)
    (hPR : resp.ParsedResults = some (pr :: rest)) :
    (∀ txt, pr.ParsedText = some txt → (pySplit txt).length < 3 →
      report (some f) true (.ok resp) year = .redirectStart) ∧
    (pr.ParsedText = none →
      report (some f) true (.ok resp) year = .raiseError "KeyError: ParsedText") := by
  constructor
  · intro txt hTxt hLen
    simp [report, hf, hok, hPR, hTxt, hLen]
  · intro hTxt
    simp [report, hf, hok, hPR, hTxt]

/-- Witness for C4 (amended): empty parsed text ("" splits into 0 tokens)
redirects; absent `ParsedText` raises. -/
theorem report_short_text_witness :
    report (some "x.jpg") true (.ok ⟨some false, none, some [⟨some ""⟩]⟩) 2024 =
      ReportOutcome.redirectStart ∧
    report (some "x.jpg") true (.ok ⟨some false, none, some [⟨none⟩]⟩) 2024 =
      ReportOutcome.raiseError "KeyError: ParsedText" :=
  ⟨(report_short_text "x.jpg" ⟨some false, none, some [⟨some ""⟩]⟩ ⟨some ""⟩ [] 2024
      (by decide) (by decide) rfl).1 "" rfl (by decide),
   (report_short_text "x.jpg" ⟨some false, none, some [⟨none⟩]⟩ ⟨none⟩ [] 2024
      (by decide) (by decide) rfl).2 rfl⟩

/-- C5: for every OCR text with 3 or more whitespace-delimited tokens, the
displayed report text equals tokens 0, 1 and 2 rejoined with single spaces
(everything beyond index 2 dropped), and token 1 is the one the verdict is
computed from. -/
theorem report_display_text (f parsed_text : String) (resp : OcrResponse)
    (pr : ParsedResult) (rest : List ParsedResult) (year : Nat)
    (hf : f ≠ "") (hok : allowed_file (some f) = true)
    (hPR : resp.ParsedResults = some (pr :: rest))
    (hTxt : pr.ParsedText = some parsed_text)
    (hLen : 3 ≤ (pySplit parsed_text).length) :
    ∃ v, report (some f) true (.ok resp) year =
        .render
          ((pySplit parsed_text).getD 0 "" ++ " " ++ (pySplit parsed_text).getD 1 ""
            ++ " " ++ (pySplit parsed_text).getD 2 "")
          (cropRelPath f) v ∧
      (pyIsDigit ((pySplit parsed_text).getD 1 "") = false → v = UNKNOWN_VERDICT) ∧
      (pyIsDigit ((pySplit parsed_text).getD 1 "") = true →
        v = if is_violation year (digitsToNat ((pySplit parsed_text).getD 1 ""))
            then "YES" else "NO") := by
  refine ⟨_, report_render_eq f parsed_text resp pr rest year hf hok hPR hTxt hLen, ?_, ?_⟩
  · intro h
    rw [h, if_neg (by decide)]
  · intro h
    rw [h, if_pos (by decide)]

/-- Witness for C5: OCR text "B 1234 XYZ extra" displays as "B 1234 XYZ". -/
theorem report_display_text_witness :
    ∃ v, report (some "x.jpg") true
        (.ok ⟨some false, none, some [⟨some "B 1234 XYZ extra"⟩]⟩) 2024 =
      .render ((pySplit "B 1234 XYZ extra").getD 0 "" ++ " "
          ++ (pySplit "B 1234 XYZ extra").getD 1 "" ++ " "
          ++ (pySplit "B 1234 XYZ extra").getD 2 "") (cropRelPath "x.jpg") v ∧
      (pyIsDigit ((pySplit "B 1234 XYZ extra").getD 1 "") = false → v = UNKNOWN_VERDICT) ∧
      (pyIsDigit ((pySplit "B 1234 XYZ extra").getD 1 "") = true →
        v = if is_violation 2024 (digitsToNat ((pySplit "B 1234 XYZ extra").getD 1 ""))
            then "YES" else "NO") :=
  report_display_text "x.jpg" "B 1234 XYZ extra"
    ⟨some false, none, some [⟨some "B 1234 XYZ extra"⟩]⟩ ⟨some "B 1234 XYZ extra"⟩ [] 2024
    (by decide) (by decide) rfl rfl (by decide)

/-- The accumulator of the prediction loop is unchanged when every result
either has no bounding box, has no save directory, or yields no existing
candidate annotated image. -/
theorem predictLoop_eq_acc (fs : String → Bool) (base : String)
    (results : List YoloResult)
    (hall : ∀ r ∈ results, 0 < r.numBoxes → ∀ d, r.save_dir = some d →
      probeCandidate fs d base = none) :
    ∀ acc, predictLoop fs base results acc = acc := by
  induction results with
  | nil => intro acc; rfl
  | cons r rs ih =>
    intro acc
    have hr := hall r (List.mem_cons_self r rs)
    have hrs : ∀ r' ∈ rs, 0 < r'.numBoxes → ∀ d, r'.save_dir = some d →
        probeCandidate fs d base = none :=
      fun r' hm => hall r' (List.mem_cons_of_mem r hm)
    simp only [predictLoop]
    by_cases hb : 0 < r.numBoxes
    · rw [if_pos hb]
      cases hd : r.save_dir with
      | none => exact ih hrs acc
      | some d =>
        show (match probeCandidate fs d base with
          | some c => predictLoop fs base rs (some c)
          | none => predictLoop fs base rs acc) = acc
        rw [hr hb d hd]
        exact ih hrs acc
    · rw [if_neg hb]
      exact ih hrs acc

/-- C2 counterexample: on a detection with zero bounding boxes the adapter
returns the results list paired with `none` for the annotated path — not
the pair `(none, none)` the claim states. -/
theorem predict_image_no_box_cex :
    predict_image (fun _ => false) "static/uploads/a.jpg"
        [⟨0, some "static/predict"⟩] =
      (some [⟨0, some "static/predict"⟩], none) ∧
    predict_image (fun _ => false) "static/uploads/a.jpg"
        [⟨0, some "static/predict"⟩] ≠
      ((none : Option (List YoloResult)), (none : Option String)) := by
  constructor
  · rfl
  · decide

/-- C2 (amended): when no result carries a bounding box — and likewise when
the save directory is absent or no probed annotated file exists — the
adapter returns `(results, none)`: only the annotated-path component is
null (the `(null, null)` pair arises only from the exception path), the
failure is not raised, and the `/detect` route maps the outcome to a
redirect to the start page. -/
theorem predict_image_no_box (fs : String → Bool) (f : String)
    (results : List YoloResult)
    (hall : ∀ r ∈ results, 0 < r.numBoxes → ∀ d, r.save_dir = some d →
      probeCandidate fs d (pyStem (UPLOAD_FOLDER ++ "/" ++ f)) = none) :
    predict_image fs (UPLOAD_FOLDER ++ "/" ++ f) results = (some results, none) ∧
    ∀ cropJpgs, detect fs (some f) true results cropJpgs =
      DetectOutcome.redirectStart := by
  have hpred : predict_image fs (UPLOAD_FOLDER ++ "/" ++ f) results =
      (some results, none) := by
    simp only [predict_image]
    rw [predictLoop_eq_acc fs _ results hall none]
  refine ⟨hpred, fun cropJpgs => ?_⟩
  simp only [detect]
  by_cases hgate : f = "" ∨ ¬ allowed_file (some f)
  · rw [if_pos hgate]
  · rw [if_neg hgate, if_neg (by decide), hpred]
    cases hre : results.isEmpty <;> simp [hre]

/-- Witness for C2 (amended): a single zero-box result. -/
theorem predict_image_no_box_witness :
    predict_image (fun _ => false) (UPLOAD_FOLDER ++ "/" ++ "a.jpg")
        [⟨0, some "static/predict"⟩] =
      (some [⟨0, some "static/predict"⟩], none) ∧
    ∀ cropJpgs, detect (fun _ => false) (some "a.jpg") true
        [⟨0, some "static/predict"⟩] cropJpgs = DetectOutcome.redirectStart :=
  predict_image_no_box (fun _ => false) "a.jpg" [⟨0, some "static/predict"⟩]
    (by
      intro r hm hb
      rw [List.mem_singleton] at hm
      subst hm
      exact absurd hb (by decide))

/-- C6 counterexample: "a.PNG" has extension ".PNG", which is not a member
of the allow-list, yet an upload of it with an image MIME type and
verifiable image bytes is accepted (redirect to the preview page), not
rejected. -/
theorem upload_uppercase_ext_cex :
    ALLOWED_EXTENSIONS.contains (pySuffix "a.PNG") = false ∧
    upload (some ⟨"a.PNG", "image/png", true⟩) "20240101000000" ≠
      UploadOutcome.redirectStart := by
  constructor
  · rfl
  · decide

/-- C6 (amended): for every upload request whose filename's lowercased
extension is not in the allow-list — and likewise when no file field is
present, the filename is empty, the declared MIME type does not start with
"image/", or the bytes fail image verification — the upload is rejected
with a redirect to the start page; the redirect is issued before
`file.save`, so nothing is persisted. -/
theorem upload_rejects (ff : Option UploadedFile) (ts : String)
    (h : ff = none ∨ ∃ file, ff = some file ∧
      (file.filename = "" ∨
       ALLOWED_EXTENSIONS.contains (lowerAscii (pySuffix file.filename)) = false ∨
       "image/".toList.isPrefixOf file.mimetype.toList = false ∨
       file.decodesAsImage = false)) :
    upload ff ts = UploadOutcome.redirectStart := by
  rcases h with h | ⟨file, hff, hcase⟩
  · subst h; rfl
  · subst hff
    simp only [upload]
    rcases hcase with hc | hc | hc | hc
    · rw [if_pos (Or.inl hc)]
    · have haf : allowed_file (some file.filename) = false := hc
      rw [if_pos (Or.inr (by simp [haf]))]
    · by_cases h1 : file.filename = "" ∨ ¬ allowed_file (some file.filename)
      · rw [if_pos h1]
      · rw [if_neg h1, if_pos (by rw [hc]; decide)]
    · by_cases h1 : file.filename = "" ∨ ¬ allowed_file (some file.filename)
      · rw [if_pos h1]
      · rw [if_neg h1]
        by_cases h2 : ¬ "image/".toList.isPrefixOf file.mimetype.toList
        · rw [if_pos h2]
        · rw [if_neg h2, if_pos (by rw [hc]; decide)]

/-- Witness for C6 (amended): a ".txt" upload is rejected. -/
theorem upload_rejects_witness :
    upload (some ⟨"a.txt", "image/png", true⟩) "20240101000000" =
      UploadOutcome.redirectStart :=
  upload_rejects (some ⟨"a.txt", "image/png", true⟩) "20240101000000"
    (Or.inr ⟨⟨"a.txt", "image/png", true⟩, rfl, Or.inr (Or.inl (by decide))⟩)

/-- Appending strings concatenates their character data. -/
theorem stringDataAppend (s t : String) : (s ++ t).data = s.data ++ t.data := by
  cases s
  cases t
  rfl

/-- Two strings differ when they differ at some character position; with
the right-hand side an append whose left part covers that position, the
comparison only involves the constant part. -/
theorem ne_of_getD_append (s t tail : String) (i : Nat)
    (hi : i < t.data.length)
    (h : s.data.getD i ' ' ≠ t.data.getD i ' ') : s ≠ t ++ tail := by
  intro e
  apply h
  rw [e, stringDataAppend]
  exact List.getD_append t.data tail.data ' ' i hi

/-- C7: each failing pre-check of the OCR adapter (empty key, empty path,
nonexistent file, disallowed extension) returns its own human-readable
error string, distinct from the strings of the other failure kinds, rather
than raising; the error string for a nonexistent path mentions the path
(it is the constant prefix followed by the path itself). -/
theorem perform_ocr_prechecks (fs : String → Bool) (image_path api_key : String)
    (http : HttpResult) :
    (api_key = "" →
      perform_ocr fs image_path api_key http = .err "Error: API key is required") ∧
    (api_key ≠ "" → image_path = "" →
      perform_ocr fs image_path api_key http = .err "Error: Image path is required") ∧
    (api_key ≠ "" → image_path ≠ "" → fs image_path = false →
      perform_ocr fs image_path api_key http =
        .err ("Error: Image file not found at " ++ image_path)) ∧
    (api_key ≠ "" → image_path ≠ "" → fs image_path = true →
      allowed_file (some image_path) = false →
      perform_ocr fs image_path api_key http = .err INVALID_FORMAT_MSG) ∧
    ("Error: API key is required" ≠ "Error: Image path is required" ∧
     "Error: API key is required" ≠ INVALID_FORMAT_MSG ∧
     "Error: Image path is required" ≠ INVALID_FORMAT_MSG ∧
     "Error: API key is required" ≠ "Error: Image file not found at " ++ image_path ∧
     "Error: Image path is required" ≠ "Error: Image file not found at " ++ image_path ∧
     INVALID_FORMAT_MSG ≠ "Error: Image file not found at " ++ image_path) := by
  refine ⟨?_, ?_, ?_, ?_, ?_⟩
  · intro hk
    simp [perform_ocr, hk]
  · intro hk hp
    simp [perform_ocr, hk, hp]
  · intro hk hp hfs
    simp [perform_ocr, hk, hp, hfs]
  · intro hk hp hfs hext
    simp [perform_ocr, hk, hp, hfs, hext]
  · exact ⟨by decide, by decide, by decide,
      ne_of_getD_append "Error: API key is required"
        "Error: Image file not found at " image_path 8 (by decide) (by decide),
      ne_of_getD_append "Error: Image path is required"
        "Error: Image file not found at " image_path 13 (by decide) (by decide),
      ne_of_getD_append INVALID_FORMAT_MSG
        "Error: Image file not found at " image_path 8 (by decide) (by decide)⟩

/-- Witness for C7: a nonexistent path produces the path-mentioning error
string. -/
theorem perform_ocr_prechecks_witness :
    perform_ocr (fun _ => false) "missing.jpg" "key" .timeout =
      .err ("Error: Image file not found at " ++ "missing.jpg") :=
  (perform_ocr_prechecks (fun _ => false) "missing.jpg" "key" .timeout).2.2.1
    (by decide) (by decide) rfl

/-- C8: extension checking is case-insensitive â `allowed_file` accepts any
filename whose lowercased suffix is in the allow-list (e.g. ".PNG"), so
the upload, preview and report handlers treat upper-case extensions as
allowed. -/
theorem allowed_file_case_insensitive (f : String) (hne : f ≠ "")
    (h : ALLOWED_EXTENSIONS.contains (lowerAscii (pySuffix f)) = true) :
    allowed_file (some f) = true ∧
    show_image f true = ShowOutcome.render f ∧
    (∀ mt ts, "image/".toList.isPrefixOf mt.toList = true →
      upload (some ⟨f, mt, true⟩) ts =
        UploadOutcome.redirectShow (secure_filename (ts ++ "_" ++ f))) ∧
    (∀ resp pr rest txt year, resp.ParsedResults = some (pr :: rest) →
      pr.ParsedText = some txt → 3 ≤ (pySplit txt).length →
      ∃ t i v, report (some f) true (.ok resp) year =
        ReportOutcome.render t i v) := by
  have haf : allowed_file (some f) = true := h
  refine ⟨haf, ?_, ?_, ?_⟩
  · simp [show_image, hne, haf]
  · intro mt ts hmt
    simp [upload, hne, haf]
    simpa using hmt
  · intro resp pr rest txt year hPR hTxt hLen
    exact ⟨_, _, _, report_render_eq f txt resp pr rest year hne haf hPR hTxt hLen⟩

/-- Witness for C8: ".PNG" is accepted and previewed. -/
theorem allowed_file_case_insensitive_witness :
    allowed_file (some "a.PNG") = true ∧
    show_image "a.PNG" true = ShowOutcome.render "a.PNG" :=
  ⟨(allowed_file_case_insensitive "a.PNG" (by decide) (by decide)).1,
   (allowed_file_case_insensitive "a.PNG" (by decide) (by decide)).2.1⟩

/-- C9 counterexample: a response with the success flag absent but an
ErrorMessage key holding an empty list is treated as errored, yet the
returned string is the "Unexpected Error" of the caught IndexError, not an
"OCR Error: ..." string. -/
theorem perform_ocr_empty_errmsg_cex :
    perform_ocr (fun _ => true) "a.jpg" "key" (.ok ⟨none, some [], none⟩) =
      .err "Unexpected Error: list index out of range" ∧
    "OCR Error".toList.isPrefixOf
      "Unexpected Error: list index out of range".toList = false := by
  constructor
  · rfl
  · rfl

/-- C9 (amended): an HTTP-successful, JSON-valid response whose
`IsErroredOnProcessing` key is absent is treated as errored (the missing
flag defaults to true) and yields an error string instead of the parsed
object: an "OCR Error: ..." string carrying the reported (or default)
message when the ErrorMessage list is absent or nonempty, and the
"Unexpected Error" string of the caught IndexError when it is present but
empty; only responses whose flag is present and false are returned as
success objects. -/
theorem perform_ocr_missing_flag (fs : String → Bool) (path key : String)
    (resp : OcrResponse)
    (hk : key ≠ "") (hp : path ≠ "") (hfs : fs path = true)
    (hext : allowed_file (some path) = true)
    (hflag : resp.IsErroredOnProcessing = none) :
    (∃ s, perform_ocr fs path key (.ok resp) = .err s) ∧
    (resp.ErrorMessage = none →
      perform_ocr fs path key (.ok resp) = .err "OCR Error: Unknown error") ∧
    (∀ m ms, resp.ErrorMessage = some (m :: ms) →
      perform_ocr fs path key (.ok resp) = .err ("OCR Error: " ++ m)) ∧
    (resp.ErrorMessage = some [] →
      perform_ocr fs path key (.ok resp) =
        .err "Unexpected Error: list index out of range") ∧
    (∀ resp2 r, perform_ocr fs path key (.ok resp2) = .ok r →
      resp2.IsErroredOnProcessing = some false ∧ r = resp2) := by
  refine ⟨?_, ?_, ?_, ?_, ?_⟩
  · cases hEM : resp.ErrorMessage with
    | none =>
      exact ⟨"OCR Error: Unknown error",
        by simp [perform_ocr, hk, hp, hfs, hext, hflag, hEM]⟩
    | some l =>
      cases l with
      | nil =>
        exact ⟨"Unexpected Error: list index out of range",
          by simp [perform_ocr, hk, hp, hfs, hext, hflag, hEM]⟩
      | cons m ms =>
        exact ⟨"OCR Error: " ++ m,
          by simp [perform_ocr, hk, hp, hfs, hext, hflag, hEM]⟩
  · intro hEM
    simp [perform_ocr, hk, hp, hfs, hext, hflag, hEM]
  · intro m ms hEM
    simp [perform_ocr, hk, hp, hfs, hext, hflag, hEM]
  · intro hEM
    simp [perform_ocr, hk, hp, hfs, hext, hflag, hEM]
  · intro resp2 r hrun
    cases hio : resp2.IsErroredOnProcessing with
    | none =>
      simp [perform_ocr, hk, hp, hfs, hext, hio] at hrun
      cases hEM : resp2.ErrorMessage with
      | none => rw [hEM] at hrun; simp at hrun
      | some l =>
        rw [hEM] at hrun
        cases l <;> simp at hrun
    | some b =>
      cases b with
      | true =>
        simp [perform_ocr, hk, hp, hfs, hext, hio] at hrun
        cases hEM : resp2.ErrorMessage with
        | none => rw [hEM] at hrun; simp at hrun
        | some l =>
          rw [hEM] at hrun
          cases l <;> simp at hrun
      | false =>
        simp [perform_ocr, hk, hp, hfs, hext, hio] at hrun
        exact ⟨rfl, hrun.symm⟩

/-- Witness for C9 (amended): flag absent, no ErrorMessage key. -/
theorem perform_ocr_missing_flag_witness :
    perform_ocr (fun _ => true) "a.jpg" "key" (.ok ⟨none, none, none⟩) =
      .err "OCR Error: Unknown error" :=
  (perform_ocr_missing_flag (fun _ => true) "a.jpg" "key" ⟨none, none, none⟩
    (by decide) (by decide) rfl (by decide) rfl).2.1 rfl

/-- C10: whenever the `/detect` handler renders the detection page, the
crop filename it passes is the first ".jpg" file of the flat crop
directory, falling back to the uploaded image's filename when that
directory holds no ".jpg" file. -/
theorem detect_crop_fallback (fs : String → Bool) (f : String) (ue : Bool)
    (ys : List YoloResult) (cs : List String) (p c : String)
    (hRun : detect fs (some f) ue ys cs = DetectOutcome.render p c) :
    c = cs.headD f := by
  simp only [detect] at hRun
  repeat' split at hRun
  all_goals simp_all [List.headD]

/-- Witness for C10: a run with an empty crop directory falls back to the
uploaded filename. -/
theorem detect_crop_fallback_witness :
    "a.jpg" = List.headD ([] : List String) "a.jpg" :=
  detect_crop_fallback (fun s => s == "static/predict/a.png") "a.jpg" true
    [⟨1, some "static/predict"⟩] [] "predict/a.png" "a.jpg" (by decide)

end OddEven
